import Mathlib

/-!
Verification of the relevance-scoring and ranking engine of the profiling
service (`app/services/scoring.py`) and of the related-keyword suggestion
feature of the lexicon (`app/utils/keywords.py`).

Modelling conventions:

* Python `float` is embedded as `ℚ` (exact rational arithmetic).  Every
  constant the code manipulates (0.25, 0.7, 0.1, ...) is exactly
  representable and every claim is about the algebraic structure of the
  computation, not about rounding.
* Python `datetime` values are embedded as `Int` (a timestamp in seconds);
  `timedelta.days` is floor division by 86400 (`Int.fdiv`), matching the
  floor-towards-minus-infinity semantics of Python.
* `datetime.now()` read inside `_score_temporel` is made an explicit `now`
  argument of the embedded functions: the ambient clock value consumed by a
  call is the only way to model the read in a pure setting.
* Python truthiness of `Optional[float]` fields (`if appel_offre.budget and
  ...`) is embedded by `pyTruthy`: `None` and `0` are falsy.  Truthiness of
  `Optional[str]` is embedded by `pyTruthyStr`: `None` and the empty string
  are falsy.
* `str.lower()` is embedded by an ASCII character map (`pyLower`); every
  string the theorems evaluate behaves identically under both.
* `difflib.SequenceMatcher(None, a, b).ratio()` is an external library
  function, not code of this repository; it is embedded as an explicit
  function argument `sim : String → String → ℚ`.  Theorems that need its
  documented range [0, 1] take that range as a hypothesis.
* `list.sort(key=..., reverse=True)` is a stable descending sort by the key;
  a stable sort of a list under a total preorder is unique, so it is embedded
  by a stable descending insertion sort (`sortDesc`).
* Python `set` (in the keyword-suggestion feature) is embedded as an
  insertion-ordered duplicate-free list (`setAdd` / `setUpdate`): membership
  and cardinality agree with the Python set, and iteration order is a
  deterministic function of the insertions, as it is inside one Python
  process.
* The number formatting `f"{x:,.0f}"` inside the financial messages is
  abstracted by `fmtMAD`; no claim depends on the rendering of a number.
-/

/-! ## Python string and option primitives -/

/-- `s.lower()` (ASCII case mapping). -/
def pyLower (s : String) : String := ⟨s.data.map Char.toLower⟩

/-- Contiguous-substring test on character lists: Python `needle in hay`. -/
def charsIn (needle hay : List Char) : Bool :=
  hay.tails.any (fun t => needle.isPrefixOf t)

/-- Python `needle in hay` for strings. -/
def pyIn (needle hay : String) : Bool := charsIn needle.data hay.data

/-- `s.strip()`: drop leading and trailing whitespace. -/
def pyStrip (s : String) : String :=
  ⟨((s.data.dropWhile Char.isWhitespace).reverse.dropWhile Char.isWhitespace).reverse⟩

/-- Truthiness of an optional number: Python `if x:` with `x : Optional[float]`
is false for `None` and for `0.0`. -/
def pyTruthy (o : Option ℚ) : Prop :=
  match o with
  | none => False
  | some x => x ≠ 0

instance (o : Option ℚ) : Decidable (pyTruthy o) :=
  match o with
  | none => isFalse (fun h => h)
  | some x => inferInstanceAs (Decidable (x ≠ 0))

/-- Truthiness of an optional string: Python `if s:` with `s : Optional[str]`
is false for `None` and for the empty string. -/
def pyTruthyStr (o : Option String) : Prop :=
  match o with
  | none => False
  | some s => s ≠ ""

instance (o : Option String) : Decidable (pyTruthyStr o) :=
  match o with
  | none => isFalse (fun h => h)
  | some s => inferInstanceAs (Decidable (s ≠ ""))

/-- Python list slicing `l[:n]` for a possibly negative `n : int`:
`n ≥ 0` keeps the first `n` items, `n < 0` drops the last `|n|` items. -/
def pySlice {α : Type} (l : List α) (n : Int) : List α :=
  if 0 ≤ n then l.take n.toNat else l.take (l.length - (-n).toNat)

/-- Auxiliary for `pySplitWs`: accumulate the current word (reversed). -/
def wordsAux : List Char → List Char → List String
  | [], acc => if acc.isEmpty then [] else [⟨acc.reverse⟩]
  | c :: cs, acc =>
    if c.isWhitespace then
      if acc.isEmpty then wordsAux cs []
      else (⟨acc.reverse⟩ : String) :: wordsAux cs []
    else wordsAux cs (c :: acc)

/-- Python `s.split()` with no argument: split on whitespace runs,
no empty tokens. -/
def pySplitWs (s : String) : List String := wordsAux s.data []

/-- Python `set.add`: append if not already present (insertion-ordered set
model). -/
def setAdd (l : List String) (x : String) : List String :=
  if x ∈ l then l else l ++ [x]

/-- Python `set.update`: add every element in order. -/
def setUpdate (l : List String) (xs : List String) : List String :=
  xs.foldl setAdd l

/-- Placeholder rendering of `f"{x:,.0f}"`; the exact text never matters to a
claim. -/
def fmtMAD (q : ℚ) : String := toString q.num

/-! ## Data model (`app/models/user_profile.py`)

Only the fields consumed by the scoring engine are embedded.  The omitted
fields of `UserProfile` (`user_id`, `email`, `nom_entreprise`,
`taille_entreprise`, notification and metadata fields, interaction history)
and of `AppelOffre` (`numero`, `ordre`, `reference`, `organisme`, `heure`,
`lots`, `score_pertinence`, `raisons_recommandation`) are never read by
`ScoringService` or by `suggest_related_keywords`. -/

inductive RayonIntervention
  | local_
  | regional
  | national
  | international
deriving DecidableEq

inductive DelaiPreference
  | court
  | moyen
  | long
  | tous
deriving DecidableEq

structure UserProfile where
  secteur_activite : List String
  villes_preferees : List String
  rayon_intervention : RayonIntervention
  budget_min : Option ℚ
  budget_max : Option ℚ
  caution_max : Option ℚ
  delai_preference : DelaiPreference
  mots_cles_metier : List String
  classifications_preferees : List String
  secteurs_exclus : List String
  villes_exclues : List String

structure AppelOffre where
  objet : String
  caution : Option ℚ
  budget : Option ℚ
  ville : String
  date_limite : Int
  classification : Option String
  texte_analyse : Option String
  secteur : String

/-- The value and message contributions of one of the six criteria: the
Python methods return a float and append to the shared `raisons` /
`penalites` lists; the embedding returns all three. -/
structure SubScore where
  score : ℚ
  raisons : List String
  penalites : List String
deriving DecidableEq

/-- `ScoreDetail` dataclass of `scoring.py`. -/
structure ScoreDetail where
  score_total : ℚ
  score_secteur : ℚ
  score_geographique : ℚ
  score_financier : ℚ
  score_temporel : ℚ
  score_mots_cles : ℚ
  score_classification : ℚ
  raisons : List String
  penalites : List String
deriving DecidableEq

/-! ## ScoringService (`app/services/scoring.py`) -/

namespace ScoringService

/-- Criterion weights set in `ScoringService.__init__` (`self.poids`). -/
def poids_secteur : ℚ := 0.25

def poids_geographique : ℚ := 0.20

def poids_financier : ℚ := 0.20

def poids_temporel : ℚ := 0.15

def poids_mots_cles : ℚ := 0.15

def poids_classification : ℚ := 0.05

/-- Recommendation threshold set in `ScoringService.__init__`. -/
def seuil_recommandation : ℚ := 0.6

def seuil_haute_pertinence : ℚ := 0.8

/-- `_score_secteur`.  `sim` stands for
`SequenceMatcher(None, a, b).ratio()` applied to the lowered strings. -/
def score_secteur (sim : String → String → ℚ) (profil : UserProfile)
    (appel : AppelOffre) : SubScore :=
  if profil.secteur_activite = [] then ⟨0.5, [], []⟩
  else if pyLower appel.secteur ∈ profil.secteur_activite.map pyLower then
    ⟨1.0, ["Secteur " ++ appel.secteur ++ " correspond à vos activités"], []⟩
  else
    let max_similarity : ℚ := profil.secteur_activite.foldl
      (fun m s => max m (sim (pyLower s) (pyLower appel.secteur))) 0.0
    if 0.7 < max_similarity then
      ⟨max_similarity, ["Secteur " ++ appel.secteur ++ " similaire à vos activités"], []⟩
    else if 0.4 < max_similarity then
      ⟨max_similarity, [], []⟩
    else
      ⟨0.1, [], ["Secteur " ++ appel.secteur ++ " éloigné de vos activités"]⟩

/-- `_meme_region_maroc`: the static region table. -/
def regions_maroc : List (String × List String) :=
  [("grand_casablanca", ["casablanca", "mohammedia", "settat", "berrechid"]),
   ("rabat_sale", ["rabat", "sale", "temara", "skhirat"]),
   ("fes_meknes", ["fes", "meknes", "ifrane", "khenifra"]),
   ("marrakech", ["marrakech", "essaouira", "safi", "kelaa"]),
   ("tanger_tetouan", ["tanger", "tetouan", "larache", "chefchaouen"]),
   ("oriental", ["oujda", "nador", "berkane", "taourirt"]),
   ("souss_massa", ["agadir", "tiznit", "taroudant", "ouarzazate"])]

/-- `_meme_region_maroc`. -/
def meme_region_maroc (villes_preferees : List String) (ville_appel : String) : Bool :=
  if villes_preferees = [] then false
  else
    let va := pyLower ville_appel
    let vp := villes_preferees.map pyLower
    regions_maroc.any (fun r => r.2.contains va && vp.any (fun v => r.2.contains v))

/-- `_score_geographique`. -/
def score_geographique (profil : UserProfile) (appel : AppelOffre) : SubScore :=
  let ville_appel := pyStrip (pyLower appel.ville)
  if profil.villes_preferees ≠ [] ∧
      ville_appel ∈ profil.villes_preferees.map (fun v => pyStrip (pyLower v)) then
    ⟨1.0, ["Situé dans votre zone préférée : " ++ appel.ville], []⟩
  else
    match profil.rayon_intervention with
    | RayonIntervention.national =>
      ⟨0.8, ["Compatible avec votre rayon d\x27intervention national"], []⟩
    | RayonIntervention.regional =>
      if meme_region_maroc profil.villes_preferees ville_appel then
        ⟨0.9, ["Dans votre région d\x27intervention"], []⟩
      else ⟨0.4, [], []⟩
    | RayonIntervention.local_ =>
      ⟨0.2, [], ["Ville " ++ appel.ville ++ " hors de votre zone locale"]⟩
    | RayonIntervention.international => ⟨0.5, [], []⟩

/-- `_score_financier`.  The two stages multiply a running score that starts
at 1.0; the final value is floored at 0.1. -/
def score_financier (profil : UserProfile) (appel : AppelOffre) : SubScore :=
  let r0 : SubScore := ⟨1.0, [], []⟩
  let r1 : SubScore :=
    if pyTruthy appel.budget ∧ pyTruthy profil.budget_max then
      let b := appel.budget.getD 0
      if profil.budget_max.getD 0 < b then
        ⟨r0.score * 0.2, r0.raisons,
         r0.penalites ++ ["Budget " ++ fmtMAD b ++ " MAD supérieur à votre capacité"]⟩
      else if pyTruthy profil.budget_min ∧ b < profil.budget_min.getD 0 then
        ⟨r0.score * 0.7, r0.raisons,
         r0.penalites ++ ["Budget " ++ fmtMAD b ++ " MAD inférieur à vos attentes"]⟩
      else
        ⟨r0.score, r0.raisons ++ ["Budget " ++ fmtMAD b ++ " MAD compatible"], r0.penalites⟩
    else r0
  let r2 : SubScore :=
    if pyTruthy appel.caution ∧ pyTruthy profil.caution_max then
      let c := appel.caution.getD 0
      if profil.caution_max.getD 0 < c then
        ⟨r1.score * 0.1, r1.raisons,
         r1.penalites ++ ["Caution " ++ fmtMAD c ++ " MAD trop élevée"]⟩
      else
        ⟨r1.score, r1.raisons ++ ["Caution " ++ fmtMAD c ++ " MAD acceptable"], r1.penalites⟩
    else r1
  ⟨max r2.score 0.1, r2.raisons, r2.penalites⟩

/-- `_score_temporel`.  `jours_restants` is
`(appel_offre.date_limite - datetime.now()).days`; `now` is the ambient clock
value consumed by the call.  The trailing `return 0.5` of the Python method is
unreachable for the closed four-member enum and has no counterpart here. -/
def score_temporel (profil : UserProfile) (appel : AppelOffre) (now : Int) : SubScore :=
  let jours_restants : Int := Int.fdiv (appel.date_limite - now) 86400
  if jours_restants < 0 then ⟨0.0, [], ["Appel d\x27offre expiré"]⟩
  else
    match profil.delai_preference with
    | DelaiPreference.tous => ⟨0.8, [], []⟩
    | DelaiPreference.court =>
      if jours_restants ≤ 30 then
        ⟨1.0, ["Délai court (" ++ toString jours_restants ++ " jours) selon vos préférences"], []⟩
      else
        ⟨max 0.3 (1.0 - ((jours_restants - 30 : Int) : ℚ) / 100), [], []⟩
    | DelaiPreference.moyen =>
      if 30 ≤ jours_restants ∧ jours_restants ≤ 90 then
        ⟨1.0, ["Délai moyen (" ++ toString jours_restants ++ " jours) selon vos préférences"], []⟩
      else ⟨0.6, [], []⟩
    | DelaiPreference.long =>
      if 90 < jours_restants then
        ⟨1.0, ["Délai long (" ++ toString jours_restants ++ " jours) selon vos préférences"], []⟩
      else ⟨0.7, [], []⟩

/-- `_score_mots_cles`.  `appel_offre.texte_analyse or ''` yields the empty
string for both `None` and `""`, i.e. `Option.getD ""`. -/
def score_mots_cles (profil : UserProfile) (appel : AppelOffre) : SubScore :=
  if profil.mots_cles_metier = [] then ⟨0.5, [], []⟩
  else
    let texte_analyse := pyLower (appel.objet ++ " " ++ appel.texte_analyse.getD "")
    let mots_cles_trouves :=
      profil.mots_cles_metier.filter (fun m => pyIn (pyLower m) texte_analyse)
    if mots_cles_trouves ≠ [] then
      ⟨min 1.0 ((mots_cles_trouves.length : ℚ) / (profil.mots_cles_metier.length : ℚ) * 1.5),
       ["Mots-clés correspondants: " ++ String.intercalate ", " mots_cles_trouves], []⟩
    else ⟨0.2, [], []⟩

/-- `_score_classification`.  The Python loop returns on the first matching
preference; the appended reason does not depend on which preference matched,
so `List.any` is an exact model. -/
def score_classification (profil : UserProfile) (appel : AppelOffre) : SubScore :=
  if profil.classifications_preferees = [] ∨ ¬ pyTruthyStr appel.classification then
    ⟨0.5, [], []⟩
  else
    let classification_lower := pyLower (appel.classification.getD "")
    if profil.classifications_preferees.any
        (fun c => pyIn (pyLower c) classification_lower ||
                  pyIn classification_lower (pyLower c)) then
      ⟨1.0, ["Classification " ++ appel.classification.getD "" ++
             " correspond à vos préférences"], []⟩
    else ⟨0.3, [], []⟩

/-- `_est_exclu`: some excluded sector is a case-insensitive substring of the
tender sector, or some excluded city of the tender city.  (The Python
`if profil.secteurs_exclus:` guards are redundant with the loops.) -/
def est_exclu (profil : UserProfile) (appel : AppelOffre) : Bool :=
  profil.secteurs_exclus.any (fun s => pyIn (pyLower s) (pyLower appel.secteur)) ||
  profil.villes_exclues.any (fun v => pyIn (pyLower v) (pyLower appel.ville))

/-- `calculer_score_appel_offre`.  The six criteria run in order, the shared
message lists concatenate their contributions in that order, the total is the
weighted sum (the `self.poids` dict iterates in insertion order), and the
exclusion override forces the total to 0.0 and appends its penalty last. -/
def calculer_score_appel_offre (sim : String → String → ℚ) (profil : UserProfile)
    (appel : AppelOffre) (now : Int) : ScoreDetail :=
  let s1 := score_secteur sim profil appel
  let s2 := score_geographique profil appel
  let s3 := score_financier profil appel
  let s4 := score_temporel profil appel now
  let s5 := score_mots_cles profil appel
  let s6 := score_classification profil appel
  let score_total0 : ℚ :=
    s1.score * poids_secteur + s2.score * poids_geographique +
    s3.score * poids_financier + s4.score * poids_temporel +
    s5.score * poids_mots_cles + s6.score * poids_classification
  let penalites0 :=
    s1.penalites ++ s2.penalites ++ s3.penalites ++ s4.penalites ++
    s5.penalites ++ s6.penalites
  { score_total := if est_exclu profil appel then 0.0 else score_total0
    score_secteur := s1.score
    score_geographique := s2.score
    score_financier := s3.score
    score_temporel := s4.score
    score_mots_cles := s5.score
    score_classification := s6.score
    raisons := s1.raisons ++ s2.raisons ++ s3.raisons ++ s4.raisons ++
               s5.raisons ++ s6.raisons
    penalites :=
      if est_exclu profil appel then
        penalites0 ++ ["Secteur ou ville exclu par l\x27utilisateur"]
      else penalites0 }

/-- Stable descending insertion by a rational key: the new element goes after
every element whose key is ≥ its own. -/
def sortedInsertDesc {α : Type} (key : α → ℚ) (x : α) : List α → List α
  | [] => [x]
  | y :: ys => if key x ≤ key y then y :: sortedInsertDesc key x ys else x :: y :: ys

/-- Stable descending sort by a rational key, the unique stable model of
Python `list.sort(key=..., reverse=True)`: elements are inserted in input
order, each behind the already-placed elements of equal key. -/
def sortDesc {α : Type} (key : α → ℚ) (l : List α) : List α :=
  l.foldl (fun acc x => sortedInsertDesc key x acc) []

/-- The retained candidates of `recommander_appels_offres`, in input order:
every tender is scored and kept when `score_total ≥ seuil_recommandation`. -/
def resultatsFiltre (sim : String → String → ℚ) (profil : UserProfile)
    (appels : List AppelOffre) (now : Int) : List (AppelOffre × ScoreDetail) :=
  (appels.map (fun a => (a, calculer_score_appel_offre sim profil a now))).filter
    (fun x => decide (seuil_recommandation ≤ x.2.score_total))

/-- `recommander_appels_offres` (default `limite = 20`): score, filter by the
threshold, stable-sort descending by `score_total`, then Python-slice
`resultats[:limite]`. -/
def recommander_appels_offres (sim : String → String → ℚ) (profil : UserProfile)
    (appels : List AppelOffre) (limite : Int) (now : Int) :
    List (AppelOffre × ScoreDetail) :=
  pySlice (sortDesc (fun x => x.2.score_total) (resultatsFiltre sim profil appels now))
    limite

end ScoringService

/-! ## KeywordExtractor (`app/utils/keywords.py`)

Only the data and the method consumed by the claims are embedded:
`self.keywords_by_sector`, `self.synonymes` and `suggest_related_keywords`.
Python dicts iterate in insertion order, so both tables are association
lists in source order. -/

namespace KeywordExtractor

/-- `self.keywords_by_sector`: the static sector → keyword catalog. -/
def keywords_by_sector : List (String × List String) :=
  [("informatique",
    ["développement web", "application mobile", "base de données", "cybersécurité",
     "infrastructure réseau", "cloud computing", "intelligence artificielle", "blockchain",
     "ERP", "CRM", "système d\x27information", "maintenance informatique",
     "formation informatique", "audit informatique", "hébergement web",
     "logiciel de gestion", "e-commerce", "digitalisation", "transformation digitale"]),
   ("bâtiment",
    ["construction", "rénovation", "génie civil", "architecture", "maçonnerie",
     "plomberie", "électricité", "climatisation", "isolation thermique",
     "étanchéité", "carrelage", "peinture", "menuiserie", "charpente",
     "terrassement", "assainissement", "voirie", "béton armé", "infrastructure"]),
   ("transport",
    ["transport routier", "logistique", "livraison", "déménagement",
     "transport de marchandises", "transport de personnes", "affrètement",
     "entreposage", "supply chain", "douane", "transit", "fret",
     "transport international", "messagerie", "distribution"]),
   ("santé",
    ["équipement médical", "fournitures médicales", "imagerie médicale",
     "laboratoire", "pharmacie", "dispositifs médicaux", "stérilisation",
     "ambulance", "télémédecine", "dossier médical électronique",
     "maintenance médicale", "formation médicale", "hygiène hospitalière"]),
   ("éducation",
    ["formation professionnelle", "e-learning", "équipement scolaire",
     "mobilier scolaire", "fournitures scolaires", "laboratoire pédagogique",
     "bibliothèque", "cantine scolaire", "transport scolaire",
     "cours particuliers", "certification", "formation continue"]),
   ("agriculture",
    ["machinisme agricole", "irrigation", "semences", "engrais", "pesticides",
     "élevage", "arboriculture", "maraîchage", "céréaliculture",
     "transformation agroalimentaire", "certification bio", "conseil agricole",
     "vétérinaire", "équipement agricole"]),
   ("énergie",
    ["énergie solaire", "énergie éolienne", "électricité", "gaz naturel",
     "pétrole", "efficacité énergétique", "audit énergétique",
     "installation électrique", "maintenance énergétique", "smart grid",
     "biomasse", "géothermie", "hydrogène vert"]),
   ("tourisme",
    ["hôtellerie", "restauration", "agence de voyage", "guide touristique",
     "transport touristique", "animation", "événementiel", "traiteur",
     "réceptif", "écotourisme", "tourisme culturel", "hébergement"]),
   ("industrie",
    ["production industrielle", "maintenance industrielle", "contrôle qualité",
     "automation", "robotique", "mécanique de précision", "usinage",
     "soudure", "assemblage", "packaging", "logistique industrielle",
     "sécurité industrielle", "environnement industriel"]),
   ("finance",
    ["comptabilité", "audit financier", "conseil fiscal", "banque",
     "assurance", "crédit", "investissement", "gestion de patrimoine",
     "expertise comptable", "commissariat aux comptes", "financement",
     "microfinance", "trésorerie"]),
   ("communication",
    ["marketing digital", "publicité", "communication digitale", "réseaux sociaux",
     "création graphique", "impression", "événementiel", "relations presse",
     "stratégie de communication", "brand content", "web marketing",
     "référencement SEO", "community management"]),
   ("environnement",
    ["traitement des eaux", "gestion des déchets", "recyclage",
     "dépollution", "étude d\x27impact", "énergies renouvelables",
     "développement durable", "ISO 14001", "économie circulaire",
     "biodiversité", "changement climatique"]),
   ("sécurité",
    ["sécurité privée", "surveillance", "gardiennage", "système d\x27alarme",
     "vidéosurveillance", "contrôle d\x27accès", "sécurité incendie",
     "sécurité informatique", "audit sécurité", "formation sécurité",
     "transport de fonds", "protection rapprochée"]),
   ("textile",
    ["confection", "broderie", "impression textile", "maroquinerie",
     "chaussure", "mode", "design textile", "teinture", "tissage",
     "tricotage", "accessoires", "prêt-à-porter", "export textile"]),
   ("conseil",
    ["conseil en management", "formation professionnelle", "audit organisationnel",
     "accompagnement", "coaching", "stratégie d\x27entreprise", "ressources humaines",
     "optimisation des processus", "conduite du changement", "certification",
     "normalisation", "évaluation"])]

/-- `self.synonymes`: canonical term → variant terms. -/
def synonymes : List (String × List String) :=
  [("développement web", ["dev web", "création web", "site web", "application web"]),
   ("intelligence artificielle", ["IA", "AI", "machine learning", "deep learning"]),
   ("cybersécurité", ["sécurité informatique", "sécurité IT", "protection données"]),
   ("infrastructure réseau", ["réseau informatique", "administration réseau"]),
   ("génie civil", ["travaux publics", "BTP", "construction civile"]),
   ("transport routier", ["transport terrestre", "routage"]),
   ("énergie solaire", ["photovoltaïque", "solaire PV", "panneaux solaires"]),
   ("marketing digital", ["marketing numérique", "webmarketing", "digital marketing"])]

/-- `suggest_related_keywords(mot_cle, limite=10)`: walk every catalog keyword,
collect into the set (a) keywords containing the search term as a substring
other than an exact self-match, (b) multi-word keywords sharing a
whitespace-delimited word with the search term; then expand through the
synonym map in both directions; finally Python-slice to `limite`. -/
def suggest_related_keywords (mot_cle : String) (limite : Int) : List String :=
  let mot_cle_lower := pyLower mot_cle
  let s1 := keywords_by_sector.foldl (fun acc p =>
    p.2.foldl (fun acc keyword =>
      let kl := pyLower keyword
      let acc1 := if pyIn mot_cle_lower kl ∧ kl ≠ mot_cle_lower then
        setAdd acc keyword else acc
      let mots_recherche := pySplitWs mot_cle_lower
      let mots_keyword := pySplitWs kl
      if (mots_recherche.any (fun w => mots_keyword.contains w)) ∧
          1 < mots_keyword.length then
        setAdd acc1 keyword else acc1) acc) []
  let s2 := synonymes.foldl (fun acc p =>
    if mot_cle_lower = pyLower p.1 then setUpdate acc p.2
    else if mot_cle_lower ∈ p.2.map pyLower then
      setUpdate (setAdd acc p.1) (p.2.filter (fun s => pyLower s != mot_cle_lower))
    else acc) s1
  pySlice s2 limite

end KeywordExtractor

/-! ## Concrete fixtures used by witnesses and counterexamples -/

/-- A similarity oracle in the documented range of
`SequenceMatcher.ratio`, used to instantiate theorems. -/
def simW : String → String → ℚ := fun _ _ => 1/2

/-- A profile with every list field empty and no financial bound: national
radius, any-delay preference. -/
def profilBase : UserProfile :=
  { secteur_activite := []
    villes_preferees := []
    rayon_intervention := RayonIntervention.national
    budget_min := none
    budget_max := none
    caution_max := none
    delai_preference := DelaiPreference.tous
    mots_cles_metier := []
    classifications_preferees := []
    secteurs_exclus := []
    villes_exclues := [] }

/-- A tender with deadline one day after timestamp 0 and no optional field. -/
def appelBase : AppelOffre :=
  { objet := "Objet"
    caution := none
    budget := none
    ville := "Rabat"
    date_limite := 86400
    classification := none
    texte_analyse := none
    secteur := "informatique" }

/-- Profile excluding the sector of `appelBase` (case-insensitive substring). -/
def profilExclu : UserProfile := { profilBase with secteurs_exclus := ["Informatique"] }

/-- Regional-radius profile with no preferred city. -/
def profilRegional : UserProfile :=
  { profilBase with rayon_intervention := RayonIntervention.regional }

/-- Profile whose financial capacities are both exceeded by `appelCompound`. -/
def profilCompound : UserProfile :=
  { profilBase with budget_max := some 100000, caution_max := some 10000 }

/-- Tender whose budget and guarantee exceed the capacities of
`profilCompound`. -/
def appelCompound : AppelOffre :=
  { appelBase with budget := some 200000, caution := some 20000 }

/-- Profile with a budget range, for the zero-budget truthiness case. -/
def profilBornes : UserProfile :=
  { profilBase with budget_min := some 50000, budget_max := some 100000 }

/-- Tender carrying a literal zero budget. -/
def appelBudgetZero : AppelOffre := { appelBase with budget := some 0 }

/-- Tender already expired at timestamp 0. -/
def appelExpire : AppelOffre := { appelBase with date_limite := -86400 }

/-! ## Library lemmas about the helpers -/

lemma pySlice_isPrefix {α : Type} (l : List α) (n : Int) : pySlice l n <+: l := by
  unfold pySlice
  split <;> exact ⟨l.drop _, List.take_append_drop _ _⟩

lemma pySlice_length_le {α : Type} (l : List α) (n : Int) (h : 0 ≤ n) :
    (pySlice l n).length ≤ n.toNat := by
  unfold pySlice
  rw [if_pos h]
  simp [List.length_take]

lemma pySlice_nil {α : Type} (n : Int) : pySlice ([] : List α) n = [] := by
  unfold pySlice
  split <;> simp

lemma pySlice_zero {α : Type} (l : List α) : pySlice l 0 = [] := by
  unfold pySlice
  simp

namespace ScoringService

lemma sortedInsertDesc_perm {α : Type} (key : α → ℚ) (x : α) (l : List α) :
    (sortedInsertDesc key x l).Perm (x :: l) := by
  induction l with
  | nil => exact List.Perm.refl _
  | cons y ys ih =>
    simp only [sortedInsertDesc]
    split
    · exact (ih.cons y).trans (List.Perm.swap x y ys)
    · exact List.Perm.refl _

lemma sortedInsertDesc_pairwise {α : Type} (key : α → ℚ) (x : α) (l : List α)
    (h : l.Pairwise (fun a b => key b ≤ key a)) :
    (sortedInsertDesc key x l).Pairwise (fun a b => key b ≤ key a) := by
  induction l with
  | nil => simp [sortedInsertDesc]
  | cons y ys ih =>
    rcases List.pairwise_cons.1 h with ⟨hy, hys⟩
    simp only [sortedInsertDesc]
    split
    next hxy =>
      refine List.pairwise_cons.2 ⟨?_, ih hys⟩
      intro z hz
      rcases List.mem_cons.1 ((sortedInsertDesc_perm key x ys).mem_iff.1 hz) with rfl | hz'
      · exact hxy
      · exact hy z hz'
    next hxy =>
      refine List.pairwise_cons.2 ⟨?_, h⟩
      intro z hz
      rcases List.mem_cons.1 hz with rfl | hz'
      · exact le_of_lt (lt_of_not_le hxy)
      · exact le_trans (hy z hz') (le_of_lt (lt_of_not_le hxy))

lemma sortDesc_aux_pairwise {α : Type} (key : α → ℚ) (l : List α) :
    ∀ acc : List α, acc.Pairwise (fun a b => key b ≤ key a) →
      (l.foldl (fun acc x => sortedInsertDesc key x acc) acc).Pairwise
        (fun a b => key b ≤ key a) := by
  induction l with
  | nil => intro acc hacc; exact hacc
  | cons x xs ih =>
    intro acc hacc
    exact ih _ (sortedInsertDesc_pairwise key x acc hacc)

lemma sortDesc_pairwise {α : Type} (key : α → ℚ) (l : List α) :
    (sortDesc key l).Pairwise (fun a b => key b ≤ key a) :=
  sortDesc_aux_pairwise key l [] (List.Pairwise.nil)

lemma sortDesc_aux_perm {α : Type} (key : α → ℚ) (l : List α) :
    ∀ acc : List α,
      (l.foldl (fun acc x => sortedInsertDesc key x acc) acc).Perm (acc ++ l) := by
  induction l with
  | nil => intro acc; simp
  | cons x xs ih =>
    intro acc
    simp only [List.foldl_cons]
    refine (ih (sortedInsertDesc key x acc)).trans ?_
    refine (List.Perm.append_right xs (sortedInsertDesc_perm key x acc)).trans ?_
    exact List.perm_middle.symm

lemma sortDesc_perm {α : Type} (key : α → ℚ) (l : List α) :
    (sortDesc key l).Perm l := by
  simpa using sortDesc_aux_perm key l []

lemma filter_sortedInsertDesc_neg {α : Type} (key : α → ℚ) (p : α → Bool) (x : α)
    (hx : p x = false) (l : List α) :
    (sortedInsertDesc key x l).filter p = l.filter p := by
  induction l with
  | nil => simp [sortedInsertDesc, hx]
  | cons y ys ih =>
    simp only [sortedInsertDesc]
    split
    · simp only [List.filter_cons, ih]
    · simp [List.filter_cons, hx]

lemma filter_sortedInsertDesc_pos {α : Type} (key : α → ℚ) (q : ℚ) (x : α)
    (hx : key x = q) (l : List α) (hl : l.Pairwise (fun a b => key b ≤ key a)) :
    (sortedInsertDesc key x l).filter (fun a => decide (key a = q)) =
      l.filter (fun a => decide (key a = q)) ++ [x] := by
  induction l with
  | nil => simp [sortedInsertDesc, hx]
  | cons y ys ih =>
    rcases List.pairwise_cons.1 hl with ⟨hy, hys⟩
    simp only [sortedInsertDesc]
    split
    next hxy =>
      by_cases hyq : key y = q
      · simp [List.filter_cons, hyq, ih hys]
      · simp [List.filter_cons, hyq, ih hys]
    next hxy =>
      have hnone : (y :: ys).filter (fun a => decide (key a = q)) = [] := by
        rw [List.filter_eq_nil_iff]
        intro a ha
        simp only [decide_eq_true_eq]
        intro haq
        have hak : key a ≤ key y := by
          rcases List.mem_cons.1 ha with rfl | ha'
          · exact le_refl _
          · exact hy a ha'
        rw [haq, ← hx] at hak
        exact hxy hak
      simp [List.filter_cons, hnone, hx]

lemma filter_sortDesc_aux {α : Type} (key : α → ℚ) (q : ℚ) (l : List α) :
    ∀ acc : List α, acc.Pairwise (fun a b => key b ≤ key a) →
      (l.foldl (fun acc x => sortedInsertDesc key x acc) acc).filter
          (fun a => decide (key a = q)) =
        acc.filter (fun a => decide (key a = q)) ++
          l.filter (fun a => decide (key a = q)) := by
  induction l with
  | nil => intro acc hacc; simp
  | cons x xs ih =>
    intro acc hacc
    simp only [List.foldl_cons]
    rw [ih _ (sortedInsertDesc_pairwise key x acc hacc)]
    by_cases hx : key x = q
    · rw [filter_sortedInsertDesc_pos key q x hx acc hacc]
      simp [List.filter_cons, hx]
    · rw [filter_sortedInsertDesc_neg key _ x (by simp [hx]) acc]
      simp [List.filter_cons, hx]

lemma filter_sortDesc {α : Type} (key : α → ℚ) (q : ℚ) (l : List α) :
    (sortDesc key l).filter (fun a => decide (key a = q)) =
      l.filter (fun a => decide (key a = q)) := by
  simpa [sortDesc] using filter_sortDesc_aux key q l [] (List.Pairwise.nil)

/-! ## Range of the six sub-scores -/

lemma foldl_max_nonneg (f : String → ℚ) (l : List String) (init : ℚ) (h : 0 ≤ init) :
    0 ≤ l.foldl (fun m s => max m (f s)) init := by
  induction l generalizing init with
  | nil => exact h
  | cons x xs ih => exact ih _ (le_trans h (le_max_left _ _))

lemma foldl_max_le_one (f : String → ℚ) (l : List String) (init : ℚ) (h : init ≤ 1)
    (hf : ∀ s, f s ≤ 1) :
    l.foldl (fun m s => max m (f s)) init ≤ 1 := by
  induction l generalizing init with
  | nil => exact h
  | cons x xs ih => exact ih _ (max_le h (hf x))

lemma score_secteur_bounds (sim : String → String → ℚ)
    (hsim : ∀ a b, 0 ≤ sim a b ∧ sim a b ≤ 1) (profil : UserProfile)
    (appel : AppelOffre) :
    0 ≤ (score_secteur sim profil appel).score ∧
      (score_secteur sim profil appel).score ≤ 1 := by
  have h0 : 0 ≤ profil.secteur_activite.foldl
      (fun m s => max m (sim (pyLower s) (pyLower appel.secteur))) 0.0 :=
    foldl_max_nonneg _ _ _ (by norm_num)
  have h1 : profil.secteur_activite.foldl
      (fun m s => max m (sim (pyLower s) (pyLower appel.secteur))) 0.0 ≤ 1 :=
    foldl_max_le_one _ _ _ (by norm_num) (fun s => (hsim _ _).2)
  simp only [score_secteur]
  split_ifs <;> first
    | exact ⟨h0, h1⟩
    | constructor <;> norm_num

lemma score_geographique_bounds (profil : UserProfile) (appel : AppelOffre) :
    0 ≤ (score_geographique profil appel).score ∧
      (score_geographique profil appel).score ≤ 1 := by
  simp only [score_geographique]
  split
  · constructor <;> norm_num
  · split
    · constructor <;> norm_num
    · split <;> constructor <;> norm_num
    · constructor <;> norm_num
    · constructor <;> norm_num

lemma score_financier_floor (profil : UserProfile) (appel : AppelOffre) :
    (0.1 : ℚ) ≤ (score_financier profil appel).score :=
  le_max_right _ _

set_option maxHeartbeats 1000000 in
lemma score_financier_bounds (profil : UserProfile) (appel : AppelOffre) :
    0 ≤ (score_financier profil appel).score ∧
      (score_financier profil appel).score ≤ 1 := by
  refine ⟨le_trans (by norm_num) (score_financier_floor profil appel), ?_⟩
  simp only [score_financier, apply_ite SubScore.score]
  refine max_le ?_ (by norm_num)
  split_ifs <;> norm_num

lemma score_temporel_bounds (profil : UserProfile) (appel : AppelOffre) (now : Int) :
    0 ≤ (score_temporel profil appel now).score ∧
      (score_temporel profil appel now).score ≤ 1 := by
  simp only [score_temporel]
  split
  · constructor <;> norm_num
  · split
    · constructor <;> norm_num
    · split
      · constructor <;> norm_num
      next hgt =>
        have hj : (30 : Int) < Int.fdiv (appel.date_limite - now) 86400 := lt_of_not_le hgt
        have hcast : (0 : ℚ) ≤ ((Int.fdiv (appel.date_limite - now) 86400 - 30 : Int) : ℚ) := by
          exact_mod_cast Int.le_of_lt (by omega)
        have hq : (0 : ℚ) ≤ ((Int.fdiv (appel.date_limite - now) 86400 - 30 : Int) : ℚ) / 100 := by
          positivity
        constructor
        · exact le_trans (by norm_num) (le_max_left _ _)
        · refine max_le (by norm_num) ?_
          push_cast at hq ⊢
          linarith
    · split <;> constructor <;> norm_num
    · split <;> constructor <;> norm_num

lemma score_mots_cles_bounds (profil : UserProfile) (appel : AppelOffre) :
    0 ≤ (score_mots_cles profil appel).score ∧
      (score_mots_cles profil appel).score ≤ 1 := by
  simp only [score_mots_cles]
  split
  · constructor <;> norm_num
  · split
    · have hx : (0 : ℚ) ≤
          ((profil.mots_cles_metier.filter
              (fun m => pyIn (pyLower m)
                (pyLower (appel.objet ++ " " ++ appel.texte_analyse.getD "")))).length : ℚ) /
            (profil.mots_cles_metier.length : ℚ) * 1.5 := by positivity
      constructor
      · exact le_min (by norm_num) hx
      · exact le_trans (min_le_left _ _) (by norm_num)
    · constructor <;> norm_num

lemma score_classification_bounds (profil : UserProfile) (appel : AppelOffre) :
    0 ≤ (score_classification profil appel).score ∧
      (score_classification profil appel).score ≤ 1 := by
  simp only [score_classification]
  split_ifs <;> constructor <;> norm_num

/-! ## Claim C1 -/

/-- C1: for every profile, tender and clock value, with any similarity oracle
in the documented [0, 1] range of `SequenceMatcher.ratio`, each of the six
sub-scores of `calculer_score_appel_offre` lies in [0, 1], and the total
equals the fixed-weight dot product
0.25·secteur + 0.20·géo + 0.20·financier + 0.15·temporel + 0.15·mots-clés +
0.05·classification unless an exclusion fires, in which case the total is
exactly 0.0. -/
theorem claim_C1_sub_scores_and_total (sim : String → String → ℚ)
    (hsim : ∀ a b, 0 ≤ sim a b ∧ sim a b ≤ 1) (profil : UserProfile)
    (appel : AppelOffre) (now : Int) :
    (0 ≤ (calculer_score_appel_offre sim profil appel now).score_secteur ∧
      (calculer_score_appel_offre sim profil appel now).score_secteur ≤ 1) ∧
    (0 ≤ (calculer_score_appel_offre sim profil appel now).score_geographique ∧
      (calculer_score_appel_offre sim profil appel now).score_geographique ≤ 1) ∧
    (0 ≤ (calculer_score_appel_offre sim profil appel now).score_financier ∧
      (calculer_score_appel_offre sim profil appel now).score_financier ≤ 1) ∧
    (0 ≤ (calculer_score_appel_offre sim profil appel now).score_temporel ∧
      (calculer_score_appel_offre sim profil appel now).score_temporel ≤ 1) ∧
    (0 ≤ (calculer_score_appel_offre sim profil appel now).score_mots_cles ∧
      (calculer_score_appel_offre sim profil appel now).score_mots_cles ≤ 1) ∧
    (0 ≤ (calculer_score_appel_offre sim profil appel now).score_classification ∧
      (calculer_score_appel_offre sim profil appel now).score_classification ≤ 1) ∧
    (est_exclu profil appel = false →
      (calculer_score_appel_offre sim profil appel now).score_total =
        0.25 * (calculer_score_appel_offre sim profil appel now).score_secteur +
        0.20 * (calculer_score_appel_offre sim profil appel now).score_geographique +
        0.20 * (calculer_score_appel_offre sim profil appel now).score_financier +
        0.15 * (calculer_score_appel_offre sim profil appel now).score_temporel +
        0.15 * (calculer_score_appel_offre sim profil appel now).score_mots_cles +
        0.05 * (calculer_score_appel_offre sim profil appel now).score_classification) ∧
    (est_exclu profil appel = true →
      (calculer_score_appel_offre sim profil appel now).score_total = 0.0) := by
  refine ⟨score_secteur_bounds sim hsim profil appel,
    score_geographique_bounds profil appel,
    score_financier_bounds profil appel,
    score_temporel_bounds profil appel now,
    score_mots_cles_bounds profil appel,
    score_classification_bounds profil appel, ?_, ?_⟩
  · intro h
    simp only [calculer_score_appel_offre, h, Bool.false_eq_true, if_false]
    simp only [poids_secteur, poids_geographique, poids_financier, poids_temporel,
      poids_mots_cles, poids_classification]
    ring
  · intro h
    simp [calculer_score_appel_offre, h]

/-- C1 witness: the bounds and the weighted-sum equation instantiated at a
concrete non-excluded (profile, tender, now) triple. -/
theorem claim_C1_witness :
    0 ≤ (calculer_score_appel_offre simW profilBase appelBase 0).score_secteur ∧
    (calculer_score_appel_offre simW profilBase appelBase 0).score_total =
      0.25 * (calculer_score_appel_offre simW profilBase appelBase 0).score_secteur +
      0.20 * (calculer_score_appel_offre simW profilBase appelBase 0).score_geographique +
      0.20 * (calculer_score_appel_offre simW profilBase appelBase 0).score_financier +
      0.15 * (calculer_score_appel_offre simW profilBase appelBase 0).score_temporel +
      0.15 * (calculer_score_appel_offre simW profilBase appelBase 0).score_mots_cles +
      0.05 * (calculer_score_appel_offre simW profilBase appelBase 0).score_classification := by
  have h := claim_C1_sub_scores_and_total simW
    (fun a b => by constructor <;> norm_num [simW]) profilBase appelBase 0
  exact ⟨h.1.1, h.2.2.2.2.2.2.1 (by decide)⟩

/-! ## Claim C2 -/

/-- C2: whenever `_est_exclu` holds — some excluded sector is a
case-insensitive substring of the tender sector, or some excluded city of the
tender city — the returned total is exactly 0.0, the fixed exclusion penalty
is appended last, and the six sub-scores are still the values computed by the
six criterion functions (not zeroed). -/
theorem claim_C2_exclusion_override (sim : String → String → ℚ)
    (profil : UserProfile) (appel : AppelOffre) (now : Int)
    (h : est_exclu profil appel = true) :
    (calculer_score_appel_offre sim profil appel now).score_total = 0.0 ∧
    (calculer_score_appel_offre sim profil appel now).penalites.getLast? =
      some "Secteur ou ville exclu par l\x27utilisateur" ∧
    (calculer_score_appel_offre sim profil appel now).score_secteur =
      (score_secteur sim profil appel).score ∧
    (calculer_score_appel_offre sim profil appel now).score_geographique =
      (score_geographique profil appel).score ∧
    (calculer_score_appel_offre sim profil appel now).score_financier =
      (score_financier profil appel).score ∧
    (calculer_score_appel_offre sim profil appel now).score_temporel =
      (score_temporel profil appel now).score ∧
    (calculer_score_appel_offre sim profil appel now).score_mots_cles =
      (score_mots_cles profil appel).score ∧
    (calculer_score_appel_offre sim profil appel now).score_classification =
      (score_classification profil appel).score := by
  refine ⟨?_, ?_, rfl, rfl, rfl, rfl, rfl, rfl⟩
  · simp [calculer_score_appel_offre, h]
  · simp [calculer_score_appel_offre, h, List.getLast?_append]

/-- C2 witness: a profile excluding sector "Informatique" against a tender in
sector "informatique". -/
theorem claim_C2_witness :
    (calculer_score_appel_offre simW profilExclu appelBase 0).score_total = 0.0 ∧
    (calculer_score_appel_offre simW profilExclu appelBase 0).penalites.getLast? =
      some "Secteur ou ville exclu par l\x27utilisateur" :=
  ⟨(claim_C2_exclusion_override simW profilExclu appelBase 0 (by decide)).1,
   (claim_C2_exclusion_override simW profilExclu appelBase 0 (by decide)).2.1⟩

/-! ## Claim C5 -/

/-- C5: whenever the integer days-remaining (floor of
(date_limite − now) / 86400) is negative, `_score_temporel` returns exactly
0.0 with the fixed expiry penalty, for every delay preference (the expiry
test precedes the preference dispatch), and `calculer_score_appel_offre`
reports that temporal sub-score and carries the penalty reason. -/
theorem claim_C5_expired_temporal (sim : String → String → ℚ)
    (profil : UserProfile) (appel : AppelOffre) (now : Int)
    (h : Int.fdiv (appel.date_limite - now) 86400 < 0) :
    score_temporel profil appel now = ⟨0.0, [], ["Appel d\x27offre expiré"]⟩ ∧
    (calculer_score_appel_offre sim profil appel now).score_temporel = 0.0 ∧
    "Appel d\x27offre expiré" ∈ (calculer_score_appel_offre sim profil appel now).penalites := by
  have h4 : score_temporel profil appel now = ⟨0.0, [], ["Appel d\x27offre expiré"]⟩ := by
    simp only [score_temporel]
    rw [if_pos h]
  refine ⟨h4, ?_, ?_⟩
  · show (score_temporel profil appel now).score = 0.0
    rw [h4]
  · show "Appel d\x27offre expiré" ∈ (calculer_score_appel_offre sim profil appel now).penalites
    simp only [calculer_score_appel_offre]
    split <;> simp [h4, List.mem_append]

/-- C5 witness: a tender whose deadline is one day before `now = 0`, scored
with the any-delay preference. -/
theorem claim_C5_witness :
    score_temporel profilBase appelExpire 0 = ⟨0.0, [], ["Appel d\x27offre expiré"]⟩ :=
  (claim_C5_expired_temporal simW profilBase appelExpire 0 (by decide)).1

/-! ## Claim C6 -/

/-- C6: the financial sub-score is always at least 0.1 (hence never exactly
0), because `max(score, 0.1)` is applied after both multiplicative stages; in
the compound case where the ×0.2 budget penalty and the ×0.1 guarantee
penalty both fire, the returned score is exactly the 0.1 floor with both
penalty messages recorded. -/
theorem claim_C6_financial_floor :
    (∀ (profil : UserProfile) (appel : AppelOffre),
      (0.1 : ℚ) ≤ (score_financier profil appel).score ∧
        (score_financier profil appel).score ≠ 0) ∧
    (score_financier profilCompound appelCompound).score = 0.1 ∧
    (score_financier profilCompound appelCompound).penalites.length = 2 := by
  refine ⟨fun profil appel => ⟨score_financier_floor profil appel, ?_⟩, ?_, ?_⟩
  · intro h0
    have hf := score_financier_floor profil appel
    rw [h0] at hf
    norm_num at hf
  · norm_num [score_financier, profilCompound, appelCompound, profilBase, appelBase,
      pyTruthy, max_def]
  · norm_num [score_financier, profilCompound, appelCompound, profilBase, appelBase,
      pyTruthy]

/-! ## Claim C7 (corrected) -/

/-- C7 counterexample: a profile with an empty preferred-city list and the
(default) regional radius receives geography score 0.4, not the neutral 0.5
the claim asserts. -/
theorem claim_C7_counterexample :
    profilRegional.villes_preferees = [] ∧
    (calculer_score_appel_offre simW profilRegional appelBase 0).score_geographique = 0.4 ∧
    (0.4 : ℚ) ≠ 0.5 := by
  refine ⟨rfl, ?_, by norm_num⟩
  show (score_geographique profilRegional appelBase).score = 0.4
  simp [score_geographique, profilRegional, profilBase, meme_region_maroc]

/-- C7 (amended): empty sector-preference, keyword and classification lists
fall back to the neutral sub-score 0.5 and never to an error; an empty
preferred-city list also never errors but yields the radius-dependent
geography score (0.8 national, 0.4 regional, 0.2 local, 0.5 international),
which equals the neutral 0.5 only for the international radius. -/
theorem claim_C7_amended_neutral (sim : String → String → ℚ)
    (profil : UserProfile) (appel : AppelOffre) (now : Int) :
    (profil.secteur_activite = [] →
      (calculer_score_appel_offre sim profil appel now).score_secteur = 0.5) ∧
    (profil.mots_cles_metier = [] →
      (calculer_score_appel_offre sim profil appel now).score_mots_cles = 0.5) ∧
    (profil.classifications_preferees = [] →
      (calculer_score_appel_offre sim profil appel now).score_classification = 0.5) ∧
    (profil.villes_preferees = [] →
      (calculer_score_appel_offre sim profil appel now).score_geographique =
        match profil.rayon_intervention with
        | RayonIntervention.national => 0.8
        | RayonIntervention.regional => 0.4
        | RayonIntervention.local_ => 0.2
        | RayonIntervention.international => 0.5) := by
  refine ⟨?_, ?_, ?_, ?_⟩
  · intro h
    show (score_secteur sim profil appel).score = 0.5
    simp [score_secteur, h]
  · intro h
    show (score_mots_cles profil appel).score = 0.5
    simp [score_mots_cles, h]
  · intro h
    show (score_classification profil appel).score = 0.5
    simp [score_classification, h]
  · intro h
    show (score_geographique profil appel).score = _
    cases hr : profil.rayon_intervention <;>
      simp [score_geographique, h, hr, meme_region_maroc]

/-- C7 witness: the all-empty national-radius profile gets the neutral sector
score and the national geography score. -/
theorem claim_C7_witness :
    (calculer_score_appel_offre simW profilBase appelBase 0).score_secteur = 0.5 ∧
    (calculer_score_appel_offre simW profilBase appelBase 0).score_geographique = 0.8 := by
  refine ⟨(claim_C7_amended_neutral simW profilBase appelBase 0).1 rfl, ?_⟩
  have h := (claim_C7_amended_neutral simW profilBase appelBase 0).2.2.2 rfl
  simpa [profilBase] using h

/-! ## Claim C10 -/

/-- C10: in `_score_financier` a numeric field equal to 0 is treated exactly
like an absent field (Python truthiness): a zero tender budget or zero
profile max-budget skips the whole budget branch (so a zero budget below the
profile minimum incurs no ×0.7 penalty and no message), and likewise a zero
guarantee or zero max-guarantee skips the guarantee branch. -/
theorem claim_C10_zero_treated_as_absent :
    (∀ (profil : UserProfile) (appel : AppelOffre), appel.budget = some 0 →
      score_financier profil appel = score_financier profil { appel with budget := none }) ∧
    (∀ (profil : UserProfile) (appel : AppelOffre), profil.budget_max = some 0 →
      score_financier profil appel = score_financier { profil with budget_max := none } appel) ∧
    (∀ (profil : UserProfile) (appel : AppelOffre), appel.caution = some 0 →
      score_financier profil appel = score_financier profil { appel with caution := none }) ∧
    (∀ (profil : UserProfile) (appel : AppelOffre), profil.caution_max = some 0 →
      score_financier profil appel = score_financier { profil with caution_max := none } appel) ∧
    score_financier profilBornes appelBudgetZero = ⟨1, [], []⟩ := by
  refine ⟨?_, ?_, ?_, ?_, ?_⟩
  · intro profil appel h
    simp [score_financier, h, pyTruthy]
  · intro profil appel h
    simp [score_financier, h, pyTruthy]
  · intro profil appel h
    simp [score_financier, h, pyTruthy]
  · intro profil appel h
    simp [score_financier, h, pyTruthy]
  · norm_num [score_financier, profilBornes, appelBudgetZero, profilBase, appelBase,
      pyTruthy, max_def]

/-- C10 witness: the zero-budget tender scores identically to the same tender
with the budget field removed, under a profile whose minimum budget the zero
would otherwise violate. -/
theorem claim_C10_witness :
    score_financier profilBornes appelBudgetZero =
      score_financier profilBornes { appelBudgetZero with budget := none } :=
  claim_C10_zero_treated_as_absent.1 profilBornes appelBudgetZero rfl

/-! ## Claim C3 (corrected) -/

/-- C3 counterexample: with `limite = -1 ≤ 0` and two above-threshold
candidates, `recommander_appels_offres` returns one item, not the empty list
the claim requires for every limit ≤ 0 (Python `resultats[:-1]` drops only
the last retained item). -/
theorem claim_C3_counterexample :
    ((-1 : Int) ≤ 0) ∧
    (recommander_appels_offres simW profilBase [appelBase, appelBase] (-1) 0).length = 1 := by
  refine ⟨by norm_num, ?_⟩
  have hj : Int.fdiv (appelBase.date_limite - 0) 86400 = 1 := by decide
  have hst : seuil_recommandation ≤
      (calculer_score_appel_offre simW profilBase appelBase 0).score_total := by
    norm_num [calculer_score_appel_offre, score_secteur, score_geographique,
      score_financier, score_temporel, score_mots_cles, score_classification,
      est_exclu, profilBase, appelBase, pyTruthy, pyTruthyStr, max_def, hj,
      poids_secteur, poids_geographique, poids_financier, poids_temporel,
      poids_mots_cles, poids_classification, seuil_recommandation]
  have hdec : decide (seuil_recommandation ≤
      (calculer_score_appel_offre simW profilBase appelBase 0).score_total) = true :=
    decide_eq_true hst
  have hRF : (resultatsFiltre simW profilBase [appelBase, appelBase] 0).length = 2 := by
    simp [resultatsFiltre, List.filter_cons, hdec]
  show (pySlice (sortDesc (fun x => x.2.score_total)
      (resultatsFiltre simW profilBase [appelBase, appelBase] 0)) (-1)).length = 1
  have hS : (sortDesc (fun x => x.2.score_total)
      (resultatsFiltre simW profilBase [appelBase, appelBase] 0)).length = 2 := by
    rw [(sortDesc_perm _ _).length_eq, hRF]
  unfold pySlice
  rw [if_neg (by norm_num)]
  rw [List.length_take, hS]
  norm_num

/-- C3 (amended): `rank` never returns an item with total below the 0.6
recommendation threshold; for every limit ≥ 0 it returns at most `limit`
items; an empty candidate list gives the empty result; `limit = 0` gives the
empty result.  (For negative limits Python slicing instead drops the last
|limit| retained items, refuting the original "every limit ≤ 0" clause.) -/
theorem claim_C3_amended_limits (sim : String → String → ℚ) (profil : UserProfile)
    (appels : List AppelOffre) (limite : Int) (now : Int) :
    (∀ x ∈ recommander_appels_offres sim profil appels limite now,
        seuil_recommandation ≤ x.2.score_total) ∧
    (0 ≤ limite →
      (recommander_appels_offres sim profil appels limite now).length ≤ limite.toNat) ∧
    (appels = [] → recommander_appels_offres sim profil appels limite now = []) ∧
    (limite = 0 → recommander_appels_offres sim profil appels limite now = []) := by
  refine ⟨?_, ?_, ?_, ?_⟩
  · intro x hx
    have hx1 : x ∈ sortDesc (fun x => x.2.score_total)
        (resultatsFiltre sim profil appels now) :=
      ((pySlice_isPrefix _ _).sublist).subset hx
    have hx2 : x ∈ resultatsFiltre sim profil appels now :=
      (sortDesc_perm _ _).mem_iff.1 hx1
    exact of_decide_eq_true (List.mem_filter.1 hx2).2
  · intro h
    exact pySlice_length_le _ _ h
  · intro h
    subst h
    simp [recommander_appels_offres, resultatsFiltre, sortDesc, pySlice_nil]
  · intro h
    subst h
    exact pySlice_zero _

/-- C3 witness: the amended statement instantiated at concrete inputs
discharging each hypothesis. -/
theorem claim_C3_witness :
    (∀ x ∈ recommander_appels_offres simW profilBase [appelBase] 5 0,
        seuil_recommandation ≤ x.2.score_total) ∧
    (recommander_appels_offres simW profilBase [appelBase] 5 0).length ≤ (5 : Int).toNat ∧
    recommander_appels_offres simW profilBase [] 5 0 = [] ∧
    recommander_appels_offres simW profilBase [appelBase] 0 0 = [] :=
  ⟨(claim_C3_amended_limits simW profilBase [appelBase] 5 0).1,
   (claim_C3_amended_limits simW profilBase [appelBase] 5 0).2.1 (by norm_num),
   (claim_C3_amended_limits simW profilBase [] 5 0).2.2.1 rfl,
   (claim_C3_amended_limits simW profilBase [appelBase] 0 0).2.2.2 rfl⟩

/-! ## Claim C4 -/

/-- C4: the output of `recommander_appels_offres` is sorted by total score in
descending order; for every total value q the output items carrying q form a
prefix of the retained candidates carrying q in input order (the sort is
stable and truncation keeps a prefix), so equal totals appear in original
input order; and re-invoking with identical inputs (including the same `now`)
yields an identical result. -/
theorem claim_C4_sorted_stable_idempotent (sim : String → String → ℚ)
    (profil : UserProfile) (appels : List AppelOffre) (limite : Int) (now : Int) :
    (recommander_appels_offres sim profil appels limite now).Pairwise
      (fun x y => y.2.score_total ≤ x.2.score_total) ∧
    (∀ q : ℚ,
      (recommander_appels_offres sim profil appels limite now).filter
          (fun x : AppelOffre × ScoreDetail => decide (x.2.score_total = q)) <+:
        (resultatsFiltre sim profil appels now).filter
          (fun x : AppelOffre × ScoreDetail => decide (x.2.score_total = q))) ∧
    recommander_appels_offres sim profil appels limite now =
      recommander_appels_offres sim profil appels limite now := by
  refine ⟨?_, ?_, rfl⟩
  · exact List.Pairwise.sublist (pySlice_isPrefix _ _).sublist
      (sortDesc_pairwise (fun x : AppelOffre × ScoreDetail => x.2.score_total) _)
  · intro q
    have h2 : (sortDesc (fun x => x.2.score_total)
          (resultatsFiltre sim profil appels now)).filter
          (fun x : AppelOffre × ScoreDetail => decide (x.2.score_total = q)) =
        (resultatsFiltre sim profil appels now).filter
          (fun x : AppelOffre × ScoreDetail => decide (x.2.score_total = q)) :=
      filter_sortDesc (fun x : AppelOffre × ScoreDetail => x.2.score_total) q _
    have h1 := (pySlice_isPrefix (sortDesc (fun x => x.2.score_total)
        (resultatsFiltre sim profil appels now)) limite).filter
        (fun x : AppelOffre × ScoreDetail => decide (x.2.score_total = q))
    exact h2 ▸ h1

/-! ## Claim C8 (code bug: the clock is ambient, not a parameter) -/

/-- C8: the Python code reads `datetime.now()` inside `_score_temporel`
instead of taking `now` as a parameter.  Making the ambient clock value an
explicit argument of the embedding, the very same (profile, tender) pair
scores 0.8 temporally when the clock reads 0 and 0.0 when it reads 259200:
the result depends on the ambient clock, so `compute_score` as implemented is
not a function of (profile, tender) alone, and `now` is not an input the
caller supplies. -/
theorem claim_C8_ambient_clock_dependence :
    (calculer_score_appel_offre simW profilBase appelBase 0).score_temporel = 0.8 ∧
    (calculer_score_appel_offre simW profilBase appelBase 259200).score_temporel = 0.0 ∧
    calculer_score_appel_offre simW profilBase appelBase 0 ≠
      calculer_score_appel_offre simW profilBase appelBase 259200 := by
  have h1 : (calculer_score_appel_offre simW profilBase appelBase 0).score_temporel = 0.8 := by
    show (score_temporel profilBase appelBase 0).score = 0.8
    norm_num [score_temporel, profilBase, appelBase]
  have h2 : (calculer_score_appel_offre simW profilBase appelBase 259200).score_temporel = 0.0 := by
    show (score_temporel profilBase appelBase 259200).score = 0.0
    have hj : Int.fdiv (-172800) 86400 = -2 := by decide
    norm_num [score_temporel, hj, profilBase, appelBase]
  refine ⟨h1, h2, ?_⟩
  intro heq
  rw [heq] at h1
  have hcontra := h1.symm.trans h2
  norm_num at hcontra

end ScoringService

/-! ## Claim C9 (corrected) -/

set_option maxRecDepth 100000 in
/-- C9 counterexample: with `limite = -1`, `suggest_related_keywords "audit"`
returns 4 of its 5 suggestions (Python `list(...)[:-1]` drops the last one),
so the result does not have "at most limite" elements as the claim, quantified
over every limit, requires. -/
theorem claim_C9_counterexample :
    (KeywordExtractor.suggest_related_keywords "audit" (-1)).length = 4 ∧
    ¬ (((KeywordExtractor.suggest_related_keywords "audit" (-1)).length : Int) ≤ -1) := by
  constructor
  · decide
  · decide

/-- C9 (amended): for every keyword and every limit ≥ 0 the suggestion list
has at most `limit` elements, and for a fixed keyword, limit and catalog the
result is the same list in the same order on every invocation (the embedding
is a pure function of the keyword, the limit and the static catalog). -/
theorem claim_C9_amended_suggest_limit (mot_cle : String) (limite : Int)
    (h : 0 ≤ limite) :
    (KeywordExtractor.suggest_related_keywords mot_cle limite).length ≤ limite.toNat ∧
    KeywordExtractor.suggest_related_keywords mot_cle limite =
      KeywordExtractor.suggest_related_keywords mot_cle limite := by
  constructor
  · show (pySlice _ limite).length ≤ limite.toNat
    exact pySlice_length_le _ _ h
  · rfl

/-- C9 witness: the amended bound instantiated at keyword "audit" with the
default limit 10. -/
theorem claim_C9_witness :
    (KeywordExtractor.suggest_related_keywords "audit" 10).length ≤ (10 : Int).toNat :=
  (claim_C9_amended_suggest_limit "audit" 10 (by norm_num)).1
